import Mathlib

/-!
Shallow embedding of the x-mcp repository (src/x.py and src/smoke.py).

The repository exposes read-only wrapper functions over the X API v2.  Each
wrapper validates or clamps its inputs, builds a request path with an URL
query string, and forwards a single request through an external dispatch
context.  We model:

- Python str(int) and urllib.parse.urlencode / quote_plus (the only library
  functions the wrappers rely on for observable output);
- the XResult / SmokePingResponse pydantic models;
- the _request helper and all fourteen tool functions of src/x.py, plus
  smoke_ping of src/smoke.py, as values of an effect type Prog that makes
  the dispatched requests observable: a tool either returns a result
  directly or dispatches exactly one HttpRequest and post-processes the
  DispatchResponse.  This mirrors the source, where every code path of
  every wrapper performs either zero dispatch calls (local rejection) or a
  single await of ctx.dispatch.
-/

/-- Decimal digit character for a digit value 0..9 (values above 9 give
the digit 9, a case the callers never produce). -/
def digitChar (d : Nat) : Char :=
  if d = 0 then '0' else if d = 1 then '1' else if d = 2 then '2'
  else if d = 3 then '3' else if d = 4 then '4' else if d = 5 then '5'
  else if d = 6 then '6' else if d = 7 then '7' else if d = 8 then '8'
  else '9'

/-- Decimal digits of a natural number, most significant first, prepended
to an accumulator.  The first argument is recursion fuel; a fuel of n + 1
always suffices for n, since the value shrinks by a factor of ten per
step. -/
def natDigitsAux : Nat → Nat → List Char → List Char
  | 0, _, acc => acc
  | fuel + 1, n, acc =>
    let d := digitChar (n % 10)
    if n < 10 then d :: acc
    else natDigitsAux fuel (n / 10) (d :: acc)

/-- Decimal representation of a natural number. -/
def natDecimal (n : Nat) : String := ⟨natDigitsAux (n + 1) n []⟩

/-- Model of Python str(i) for an int i. -/
def pyStrInt (i : Int) : String :=
  match i with
  | .ofNat n => natDecimal n
  | .negSucc n => "-" ++ natDecimal (n + 1)

/-- Characters Python urllib never escapes: ASCII letters, digits and the
four marks underscore, dot, dash, tilde. -/
def isSafeChar (c : Char) : Bool :=
  c.isAlphanum || c = '_' || c = '.' || c = '-' || c = '~'

/-- Uppercase hexadecimal digit character for a value 0..15. -/
def hexDigitChar (n : Nat) : Char :=
  if n = 0 then '0' else if n = 1 then '1' else if n = 2 then '2'
  else if n = 3 then '3' else if n = 4 then '4' else if n = 5 then '5'
  else if n = 6 then '6' else if n = 7 then '7' else if n = 8 then '8'
  else if n = 9 then '9' else if n = 10 then 'A' else if n = 11 then 'B'
  else if n = 12 then 'C' else if n = 13 then 'D' else if n = 14 then 'E'
  else 'F'

/-- UTF-8 encoding of a character, as byte values. -/
def utf8Bytes (c : Char) : List Nat :=
  let n := c.toNat
  if n < 128 then [n]
  else if n < 2048 then [192 + n / 64, 128 + n % 64]
  else if n < 65536 then [224 + n / 4096, 128 + n / 64 % 64, 128 + n % 64]
  else [240 + n / 262144, 128 + n / 4096 % 64, 128 + n / 64 % 64, 128 + n % 64]

/-- Percent-escape of one byte: percent sign followed by two uppercase hex
digits. -/
def percentByte (b : Nat) : List Char :=
  ['%', hexDigitChar (b / 16), hexDigitChar (b % 16)]

/-- Model of Python urllib.parse.quote_plus on a character list: a space
becomes a plus, safe characters pass through, every other character is
percent-escaped byte by byte of its UTF-8 encoding. -/
def quotePlusList : List Char → List Char
  | [] => []
  | c :: cs =>
    (if c = ' ' then ['+']
     else if isSafeChar c then [c]
     else ((utf8Bytes c).map percentByte).flatten) ++ quotePlusList cs

/-- Model of Python urllib.parse.quote_plus on a string. -/
def quotePlus (s : String) : String := ⟨quotePlusList s.data⟩

/-- Model of Python "&".join. -/
def joinAmp : List String → String
  | [] => ""
  | [s] => s
  | s :: rest => s ++ "&" ++ joinAmp rest

/-- Model of urllib.parse.urlencode with its default quote_plus quoting:
each key-value pair becomes key=value with both sides quoted, pairs joined
by ampersands. -/
def urlencode (pairs : List (String × String)) : String :=
  joinAmp (pairs.map fun kv => quotePlus kv.1 ++ "=" ++ quotePlus kv.2)

/-- HTTP methods of the external dedalus_mcp transport (modelled as an
enumeration; src/x.py only ever names HttpMethod.GET). -/
inductive HttpMethod where
  | GET
  | POST
  | PUT
  | DELETE
  | PATCH
deriving DecidableEq, Repr

/-- An outbound request: method plus path (the query string is part of the
path, exactly as built in _request). -/
structure HttpRequest where
  method : HttpMethod
  path : String
deriving DecidableEq, Repr

/-- Error object optionally carried by a dispatch response. -/
structure DispatchError where
  message : String
deriving DecidableEq, Repr

/-- Response of the external ctx.dispatch call, with the fields _request
reads: a success flag, the response body (read only on success) and an
optional error object (read only on failure).  The body type is a
parameter because the Python field is untyped. -/
structure DispatchResponse (α : Type) where
  success : Bool
  body : α
  error : Option DispatchError
deriving DecidableEq, Repr

/-- The XResult pydantic model of src/x.py: success flag, optional data,
optional error string; data and error default to none. -/
structure XResult (α : Type) where
  success : Bool
  data : Option α := none
  error : Option String := none
deriving DecidableEq, Repr

/-- Path building of _request (src/x.py lines 76-80): when params is
present and nonempty, the pairs whose value is present are url-encoded,
and a nonempty query string is appended to the path after a question
mark. -/
def buildPath (path : String) (params : Option (List (String × Option String))) : String :=
  match params with
  | none => path
  | some ps =>
    if ps.isEmpty then path
    else
      let qs := urlencode (ps.filterMap fun kv => kv.2.map fun v => (kv.1, v))
      if qs = "" then path else path ++ "?" ++ qs

/-- The effect shape of every wrapper in this repository: either return a
result with no dispatch, or dispatch one request on a named connection and
post-process its response.  No wrapper in src/x.py or src/smoke.py
contains a loop or a second await, so one constructor per behaviour is
exact. -/
inductive Prog (α β : Type) where
  | ret (result : β)
  | dispatchThen (connection : String) (req : HttpRequest) (k : DispatchResponse α → β)

/-- The requests a program dispatches. -/
def Prog.requests {α β : Type} : Prog α β → List HttpRequest
  | .ret _ => []
  | .dispatchThen _ r _ => [r]

/-- Run a program against an oracle answering dispatched requests. -/
def Prog.run {α β : Type} : Prog α β → (HttpRequest → DispatchResponse α) → β
  | .ret r, _ => r
  | .dispatchThen _ req k, oracle => k (oracle req)

/-- Response handling tail of _request (src/x.py lines 85-89): on success,
an XResult carrying the response body; on failure, an XResult carrying the
error message, or the fallback string when no error object is present. -/
def dispatchResult {α : Type} (response : DispatchResponse α) : XResult α :=
  if response.success then
    { success := true, data := some response.body }
  else
    { success := false,
      error := some (match response.error with
        | some e => e.message
        | none => "Request failed") }

/-- The _request helper of src/x.py: build the path with its query string,
dispatch one request on the connection named x, and map the response
through dispatchResult. -/
def _request {α : Type} (method : HttpMethod) (path : String)
    (params : Option (List (String × Option String))) : Prog α (XResult α) :=
  Prog.dispatchThen "x" { method := method, path := buildPath path params } dispatchResult

/-- x_get_user (src/x.py lines 95-108). -/
def x_get_user {α : Type} (user_id : String) : Prog α (XResult α) :=
  _request HttpMethod.GET ("/users/" ++ user_id)
    (some [("user.fields", some "description,public_metrics,created_at")])

/-- x_get_user_by_username (src/x.py lines 111-124). -/
def x_get_user_by_username {α : Type} (username : String) : Prog α (XResult α) :=
  _request HttpMethod.GET ("/users/by/username/" ++ username)
    (some [("user.fields", some "description,public_metrics,created_at")])

/-- x_get_users (src/x.py lines 127-144): more than 100 ids are rejected
locally, otherwise the ids are comma-joined into one query parameter. -/
def x_get_users {α : Type} (user_ids : List String) : Prog α (XResult α) :=
  if user_ids.length > 100 then
    Prog.ret { success := false, error := some "Maximum 100 user IDs allowed" }
  else
    _request HttpMethod.GET "/users"
      (some [("ids", some (String.intercalate "," user_ids)),
             ("user.fields", some "description,public_metrics,created_at")])

/-- x_get_tweet (src/x.py lines 150-165). -/
def x_get_tweet {α : Type} (tweet_id : String) : Prog α (XResult α) :=
  _request HttpMethod.GET ("/tweets/" ++ tweet_id)
    (some [("tweet.fields", some "author_id,created_at,public_metrics,entities"),
           ("expansions", some "author_id"),
           ("user.fields", some "username,name")])

/-- x_get_tweets (src/x.py lines 168-187): more than 100 ids are rejected
locally, otherwise the ids are comma-joined into one query parameter. -/
def x_get_tweets {α : Type} (tweet_ids : List String) : Prog α (XResult α) :=
  if tweet_ids.length > 100 then
    Prog.ret { success := false, error := some "Maximum 100 tweet IDs allowed" }
  else
    _request HttpMethod.GET "/tweets"
      (some [("ids", some (String.intercalate "," tweet_ids)),
             ("tweet.fields", some "author_id,created_at,public_metrics,entities"),
             ("expansions", some "author_id"),
             ("user.fields", some "username,name")])

/-- x_get_user_tweets (src/x.py lines 190-207): max_results clamped to
10..100. -/
def x_get_user_tweets {α : Type} (user_id : String) (max_results : Int := 10) :
    Prog α (XResult α) :=
  let max_results := max 10 (min 100 max_results)
  _request HttpMethod.GET ("/users/" ++ user_id ++ "/tweets")
    (some [("max_results", some (pyStrInt max_results)),
           ("tweet.fields", some "created_at,public_metrics,entities")])

/-- x_get_user_mentions (src/x.py lines 210-229): max_results clamped to
10..100. -/
def x_get_user_mentions {α : Type} (user_id : String) (max_results : Int := 10) :
    Prog α (XResult α) :=
  let max_results := max 10 (min 100 max_results)
  _request HttpMethod.GET ("/users/" ++ user_id ++ "/mentions")
    (some [("max_results", some (pyStrInt max_results)),
           ("tweet.fields", some "author_id,created_at,public_metrics"),
           ("expansions", some "author_id"),
           ("user.fields", some "username,name")])

/-- x_search_recent (src/x.py lines 235-255): max_results clamped to
10..100. -/
def x_search_recent {α : Type} (query : String) (max_results : Int := 10) :
    Prog α (XResult α) :=
  let max_results := max 10 (min 100 max_results)
  _request HttpMethod.GET "/tweets/search/recent"
    (some [("query", some query),
           ("max_results", some (pyStrInt max_results)),
           ("tweet.fields", some "author_id,created_at,public_metrics,entities"),
           ("expansions", some "author_id"),
           ("user.fields", some "username,name")])

/-- x_count_recent (src/x.py lines 258-271). -/
def x_count_recent {α : Type} (query : String) : Prog α (XResult α) :=
  _request HttpMethod.GET "/tweets/counts/recent"
    (some [("query", some query)])

/-- x_get_followers (src/x.py lines 277-294): max_results clamped to
1..1000. -/
def x_get_followers {α : Type} (user_id : String) (max_results : Int := 100) :
    Prog α (XResult α) :=
  let max_results := max 1 (min 1000 max_results)
  _request HttpMethod.GET ("/users/" ++ user_id ++ "/followers")
    (some [("max_results", some (pyStrInt max_results)),
           ("user.fields", some "description,public_metrics,created_at")])

/-- x_get_following (src/x.py lines 297-314): max_results clamped to
1..1000. -/
def x_get_following {α : Type} (user_id : String) (max_results : Int := 100) :
    Prog α (XResult α) :=
  let max_results := max 1 (min 1000 max_results)
  _request HttpMethod.GET ("/users/" ++ user_id ++ "/following")
    (some [("max_results", some (pyStrInt max_results)),
           ("user.fields", some "description,public_metrics,created_at")])

/-- x_get_list (src/x.py lines 320-333). -/
def x_get_list {α : Type} (list_id : String) : Prog α (XResult α) :=
  _request HttpMethod.GET ("/lists/" ++ list_id)
    (some [("list.fields",
            some "description,follower_count,member_count,owner_id,created_at")])

/-- x_get_list_tweets (src/x.py lines 336-355): max_results clamped to
1..100. -/
def x_get_list_tweets {α : Type} (list_id : String) (max_results : Int := 10) :
    Prog α (XResult α) :=
  let max_results := max 1 (min 100 max_results)
  _request HttpMethod.GET ("/lists/" ++ list_id ++ "/tweets")
    (some [("max_results", some (pyStrInt max_results)),
           ("tweet.fields", some "author_id,created_at,public_metrics"),
           ("expansions", some "author_id"),
           ("user.fields", some "username,name")])

/-- x_get_user_lists (src/x.py lines 358-375): max_results clamped to
1..100. -/
def x_get_user_lists {α : Type} (user_id : String) (max_results : Int := 100) :
    Prog α (XResult α) :=
  let max_results := max 1 (min 100 max_results)
  _request HttpMethod.GET ("/users/" ++ user_id ++ "/owned_lists")
    (some [("max_results", some (pyStrInt max_results)),
           ("list.fields", some "description,follower_count,member_count,created_at")])

/-- The SmokePingResponse pydantic model of src/smoke.py: ok defaults to
true. -/
structure SmokePingResponse where
  ok : Bool := true
  message : String
deriving DecidableEq, Repr

/-- smoke_ping (src/smoke.py lines 25-27): returns directly, with no
dispatch call; message defaults to pong. -/
def smoke_ping {α : Type} (message : String := "pong") : Prog α SmokePingResponse :=
  Prog.ret { message := message }

/-- One constructor per tool function exported in x_tools (src/x.py lines
380-400), carrying that tool's arguments. -/
inductive ToolCall where
  | getUser (user_id : String)
  | getUserByUsername (username : String)
  | getUsers (user_ids : List String)
  | getTweet (tweet_id : String)
  | getTweets (tweet_ids : List String)
  | getUserTweets (user_id : String) (max_results : Int)
  | getUserMentions (user_id : String) (max_results : Int)
  | searchRecent (query : String) (max_results : Int)
  | countRecent (query : String)
  | getFollowers (user_id : String) (max_results : Int)
  | getFollowing (user_id : String) (max_results : Int)
  | getList (list_id : String)
  | getListTweets (list_id : String) (max_results : Int)
  | getUserLists (user_id : String) (max_results : Int)
deriving DecidableEq, Repr

/-- Dispatch a tool call to the corresponding wrapper function. -/
def runTool {α : Type} : ToolCall → Prog α (XResult α)
  | .getUser u => x_get_user u
  | .getUserByUsername u => x_get_user_by_username u
  | .getUsers ids => x_get_users ids
  | .getTweet t => x_get_tweet t
  | .getTweets ids => x_get_tweets ids
  | .getUserTweets u m => x_get_user_tweets u m
  | .getUserMentions u m => x_get_user_mentions u m
  | .searchRecent q m => x_search_recent q m
  | .countRecent q => x_count_recent q
  | .getFollowers u m => x_get_followers u m
  | .getFollowing u m => x_get_following u m
  | .getList l => x_get_list l
  | .getListTweets l m => x_get_list_tweets l m
  | .getUserLists u m => x_get_user_lists u m

/-- The names in the x_tools export list (src/x.py lines 380-400), in
source order. -/
def x_tools : List String :=
  ["x_get_user", "x_get_user_by_username", "x_get_users",
   "x_get_tweet", "x_get_tweets", "x_get_user_tweets", "x_get_user_mentions",
   "x_search_recent", "x_count_recent",
   "x_get_followers", "x_get_following",
   "x_get_list", "x_get_list_tweets", "x_get_user_lists"]

/-- The local validation a tool call must pass before its wrapper
dispatches: only the two batch tools validate, both capping their id list
at 100. -/
def localValid : ToolCall → Bool
  | .getUsers ids => decide (ids.length ≤ 100)
  | .getTweets ids => decide (ids.length ≤ 100)
  | _ => true

/-! Helper lemmas about the string-building layer. -/

theorem data_append (a b : String) : (a ++ b).data = a.data ++ b.data := rfl

theorem joinAmp_cons_length (s : String) (rest : List String) :
    s.length ≤ (joinAmp (s :: rest)).length := by
  cases rest with
  | nil => simp [joinAmp]
  | cons t ts =>
    have h1 : ("&" : String).length = 1 := rfl
    simp [joinAmp, String.length_append]
    omega

theorem urlencode_cons_ne_empty (kv : String × String) (l : List (String × String)) :
    urlencode (kv :: l) ≠ "" := by
  intro h
  have h1 := joinAmp_cons_length (quotePlus kv.1 ++ "=" ++ quotePlus kv.2)
    (l.map fun p => quotePlus p.1 ++ "=" ++ quotePlus p.2)
  rw [show joinAmp ((quotePlus kv.1 ++ "=" ++ quotePlus kv.2) ::
        (l.map fun p => quotePlus p.1 ++ "=" ++ quotePlus p.2)) = urlencode (kv :: l) from rfl,
      h] at h1
  simp [String.length_append] at h1
  exact absurd h1.1.2 (by decide)

theorem buildPath_cons (p k v : String) (ps : List (String × Option String)) :
    buildPath p (some ((k, some v) :: ps)) =
      p ++ "?" ++ urlencode ((k, v) :: ps.filterMap fun kv => kv.2.map fun w => (kv.1, w)) := by
  unfold buildPath
  simp only [List.isEmpty_cons, Bool.false_eq_true, if_false, List.filterMap_cons]
  simp [urlencode_cons_ne_empty]

theorem digitChar_isDigit (d : Nat) : (digitChar d).isDigit = true := by
  unfold digitChar
  repeat' split
  all_goals decide

theorem natDigitsAux_digits (fuel : Nat) :
    ∀ (n : Nat) (acc : List Char), (∀ c ∈ acc, c.isDigit = true) →
      ∀ c ∈ natDigitsAux fuel n acc, c.isDigit = true := by
  induction fuel with
  | zero => exact fun n acc hacc c hc => hacc c hc
  | succ f ih =>
    intro n acc hacc c hc
    rw [natDigitsAux] at hc
    by_cases h : n < 10
    · simp only [h, if_pos] at hc
      rw [List.mem_cons] at hc
      rcases hc with hc | hc
      · exact hc ▸ digitChar_isDigit _
      · exact hacc c hc
    · simp only [h, if_neg, not_false_iff, if_false] at hc
      refine ih (n / 10) _ ?_ c hc
      intro e he
      rw [List.mem_cons] at he
      rcases he with he | he
      · exact he ▸ digitChar_isDigit _
      · exact hacc e he

theorem quotePlusList_digits (l : List Char) (h : ∀ c ∈ l, c.isDigit = true) :
    quotePlusList l = l := by
  induction l with
  | nil => rfl
  | cons c cs ih =>
    have hc : c.isDigit = true := h c (by simp)
    have h1 : ¬(c = ' ') := by
      intro e
      rw [e] at hc
      exact absurd hc (by decide)
    have h2 : isSafeChar c = true := by
      simp [isSafeChar, Char.isAlphanum, hc]
    rw [quotePlusList]
    simp only [h1, if_false, h2, if_true]
    rw [ih fun e he => h e (by simp [he])]
    rfl

theorem quotePlus_pyStrInt (i : Int) (h : 0 ≤ i) : quotePlus (pyStrInt i) = pyStrInt i := by
  match i, h with
  | .ofNat n, _ =>
    show quotePlus (natDecimal n) = natDecimal n
    unfold quotePlus natDecimal
    rw [show (String.mk (natDigitsAux (n + 1) n [])).data = natDigitsAux (n + 1) n [] from rfl]
    rw [quotePlusList_digits _ (natDigitsAux_digits (n + 1) n [] (by intro c hc; cases hc))]

theorem filterMap_filter_isSome (ps : List (String × Option String)) :
    (ps.filter fun kv => kv.2.isSome).filterMap (fun kv => kv.2.map fun v => (kv.1, v)) =
      ps.filterMap (fun kv => kv.2.map fun v => (kv.1, v)) := by
  induction ps with
  | nil => rfl
  | cons kv t ih => rcases kv with ⟨k, _ | v⟩ <;> simp [List.filter, List.filterMap, ih]

theorem buildPath_some_eq (p : String) (ps : List (String × Option String)) :
    buildPath p (some ps) =
      if (ps.filterMap fun kv => kv.2.map fun v => (kv.1, v)) = [] then p
      else p ++ "?" ++ urlencode (ps.filterMap fun kv => kv.2.map fun v => (kv.1, v)) := by
  unfold buildPath
  cases ps with
  | nil => simp
  | cons kv t =>
    simp only [List.isEmpty_cons, Bool.false_eq_true, if_false]
    rcases hm : (kv :: t).filterMap (fun kv => kv.2.map fun v => (kv.1, v)) with _ | ⟨x, xs⟩
    · rw [hm]
      simp [urlencode, joinAmp]
    · rw [hm]
      have hne := urlencode_cons_ne_empty x xs
      rw [if_neg hne]
      simp

/-! Claim theorems. -/

/-- Claim C1: x_get_users returns the local failure XResult with error
string Maximum 100 user IDs allowed exactly when its list holds more than
100 identifiers, and x_get_tweets likewise with its own error string; a
list of exactly 100 identifiers is not rejected. -/
theorem batch_cap_rejection_iff (α : Type) (ids : List String) :
    (x_get_users (α := α) ids =
        Prog.ret { success := false, data := none, error := some "Maximum 100 user IDs allowed" } ↔
      100 < ids.length) ∧
    (x_get_tweets (α := α) ids =
        Prog.ret { success := false, data := none, error := some "Maximum 100 tweet IDs allowed" } ↔
      100 < ids.length) := by
  constructor
  · constructor
    · intro h
      by_cases hl : ids.length > 100
      · exact hl
      · simp [x_get_users, hl, _request] at h
    · intro h
      simp [x_get_users, h]
  · constructor
    · intro h
      by_cases hl : ids.length > 100
      · exact hl
      · simp [x_get_tweets, hl, _request] at h
    · intro h
      simp [x_get_tweets, h]

/-- Witness for C1: a list of 101 ids is rejected with the fixed message,
a list of exactly 100 ids is not. -/
theorem batch_cap_rejection_iff_check :
    x_get_users (α := Unit) (List.replicate 101 "1") =
        Prog.ret { success := false, data := none, error := some "Maximum 100 user IDs allowed" } ∧
    ¬(x_get_users (α := Unit) (List.replicate 100 "1") =
        Prog.ret { success := false, data := none, error := some "Maximum 100 user IDs allowed" }) := by
  constructor
  · exact (batch_cap_rejection_iff Unit (List.replicate 101 "1")).1.mpr (by norm_num)
  · intro h
    have h2 := (batch_cap_rejection_iff Unit (List.replicate 100 "1")).1.mp h
    norm_num at h2

/-- Claim C2: for every integer max_results, the value forwarded in the
outbound max_results query parameter is the input clamped by min/max to
10..100 for x_get_user_tweets, x_get_user_mentions and x_search_recent, to
1..1000 for x_get_followers and x_get_following, and to 1..100 for
x_get_list_tweets and x_get_user_lists; values below the minimum are
raised to it and values above the maximum are capped to it. -/
theorem max_results_clamped (α : Type) (uid q lid : String) (k : Int) :
    (x_get_user_tweets (α := α) uid k).requests =
      [{ method := HttpMethod.GET,
         path := "/users/" ++ uid ++ "/tweets?max_results=" ++ pyStrInt (max 10 (min 100 k)) ++ "&tweet.fields=created_at%2Cpublic_metrics%2Centities" }] ∧
    (x_get_user_mentions (α := α) uid k).requests =
      [{ method := HttpMethod.GET,
         path := "/users/" ++ uid ++ "/mentions?max_results=" ++ pyStrInt (max 10 (min 100 k)) ++ "&tweet.fields=author_id%2Ccreated_at%2Cpublic_metrics&expansions=author_id&user.fields=username%2Cname" }] ∧
    (x_search_recent (α := α) q k).requests =
      [{ method := HttpMethod.GET,
         path := "/tweets/search/recent?query=" ++ quotePlus q ++ "&max_results=" ++ pyStrInt (max 10 (min 100 k)) ++ "&tweet.fields=author_id%2Ccreated_at%2Cpublic_metrics%2Centities&expansions=author_id&user.fields=username%2Cname" }] ∧
    (x_get_followers (α := α) uid k).requests =
      [{ method := HttpMethod.GET,
         path := "/users/" ++ uid ++ "/followers?max_results=" ++ pyStrInt (max 1 (min 1000 k)) ++ "&user.fields=description%2Cpublic_metrics%2Ccreated_at" }] ∧
    (x_get_following (α := α) uid k).requests =
      [{ method := HttpMethod.GET,
         path := "/users/" ++ uid ++ "/following?max_results=" ++ pyStrInt (max 1 (min 1000 k)) ++ "&user.fields=description%2Cpublic_metrics%2Ccreated_at" }] ∧
    (x_get_list_tweets (α := α) lid k).requests =
      [{ method := HttpMethod.GET,
         path := "/lists/" ++ lid ++ "/tweets?max_results=" ++ pyStrInt (max 1 (min 100 k)) ++ "&tweet.fields=author_id%2Ccreated_at%2Cpublic_metrics&expansions=author_id&user.fields=username%2Cname" }] ∧
    (x_get_user_lists (α := α) uid k).requests =
      [{ method := HttpMethod.GET,
         path := "/users/" ++ uid ++ "/owned_lists?max_results=" ++ pyStrInt (max 1 (min 100 k)) ++ "&list.fields=description%2Cfollower_count%2Cmember_count%2Ccreated_at" }] ∧
    (k < 10 → max 10 (min 100 k) = 10) ∧
    (100 < k → max 10 (min 100 k) = 100) ∧
    (10 ≤ k → k ≤ 100 → max 10 (min 100 k) = k) ∧
    (k < 1 → max 1 (min 1000 k) = 1) ∧
    (1000 < k → max 1 (min 1000 k) = 1000) ∧
    (1 ≤ k → k ≤ 1000 → max 1 (min 1000 k) = k) ∧
    (k < 1 → max 1 (min 100 k) = 1) ∧
    (100 < k → max 1 (min 100 k) = 100) ∧
    (1 ≤ k → k ≤ 100 → max 1 (min 100 k) = k) := by
  refine ⟨?_, ?_, ?_, ?_, ?_, ?_, ?_, ?_, ?_, ?_, ?_, ?_, ?_, ?_, ?_, ?_⟩
  · have h0 : (0 : Int) ≤ max 10 (min 100 k) := le_trans (by norm_num) (le_max_left _ _)
    simp only [x_get_user_tweets, _request, Prog.requests, buildPath_cons]
    simp only [List.cons.injEq, and_true, HttpRequest.mk.injEq, true_and]
    simp only [urlencode, List.filterMap_cons, List.filterMap_nil, Option.map_some, List.map,
      joinAmp, quotePlus_pyStrInt _ h0]
    rw [show quotePlus "max_results" = "max_results" from rfl,
        show quotePlus "tweet.fields" = "tweet.fields" from rfl,
        show quotePlus "created_at,public_metrics,entities" = "created_at%2Cpublic_metrics%2Centities" from rfl]
    apply String.ext
    simp [data_append]
  · have h0 : (0 : Int) ≤ max 10 (min 100 k) := le_trans (by norm_num) (le_max_left _ _)
    simp only [x_get_user_mentions, _request, Prog.requests, buildPath_cons]
    simp only [List.cons.injEq, and_true, HttpRequest.mk.injEq, true_and]
    simp only [urlencode, List.filterMap_cons, List.filterMap_nil, Option.map_some, List.map,
      joinAmp, quotePlus_pyStrInt _ h0]
    rw [show quotePlus "max_results" = "max_results" from rfl,
        show quotePlus "tweet.fields" = "tweet.fields" from rfl,
        show quotePlus "author_id,created_at,public_metrics" = "author_id%2Ccreated_at%2Cpublic_metrics" from rfl,
        show quotePlus "expansions" = "expansions" from rfl,
        show quotePlus "author_id" = "author_id" from rfl,
        show quotePlus "user.fields" = "user.fields" from rfl,
        show quotePlus "username,name" = "username%2Cname" from rfl]
    apply String.ext
    simp [data_append]
  · have h0 : (0 : Int) ≤ max 10 (min 100 k) := le_trans (by norm_num) (le_max_left _ _)
    simp only [x_search_recent, _request, Prog.requests, buildPath_cons]
    simp only [List.cons.injEq, and_true, HttpRequest.mk.injEq, true_and]
    simp only [urlencode, List.filterMap_cons, List.filterMap_nil, Option.map_some, List.map,
      joinAmp, quotePlus_pyStrInt _ h0]
    rw [show quotePlus "query" = "query" from rfl,
        show quotePlus "max_results" = "max_results" from rfl,
        show quotePlus "tweet.fields" = "tweet.fields" from rfl,
        show quotePlus "author_id,created_at,public_metrics,entities" = "author_id%2Ccreated_at%2Cpublic_metrics%2Centities" from rfl,
        show quotePlus "expansions" = "expansions" from rfl,
        show quotePlus "author_id" = "author_id" from rfl,
        show quotePlus "user.fields" = "user.fields" from rfl,
        show quotePlus "username,name" = "username%2Cname" from rfl]
    apply String.ext
    simp [data_append]
  · have h0 : (0 : Int) ≤ max 1 (min 1000 k) := le_trans (by norm_num) (le_max_left _ _)
    simp only [x_get_followers, _request, Prog.requests, buildPath_cons]
    simp only [List.cons.injEq, and_true, HttpRequest.mk.injEq, true_and]
    simp only [urlencode, List.filterMap_cons, List.filterMap_nil, Option.map_some, List.map,
      joinAmp, quotePlus_pyStrInt _ h0]
    rw [show quotePlus "max_results" = "max_results" from rfl,
        show quotePlus "user.fields" = "user.fields" from rfl,
        show quotePlus "description,public_metrics,created_at" = "description%2Cpublic_metrics%2Ccreated_at" from rfl]
    apply String.ext
    simp [data_append]
  · have h0 : (0 : Int) ≤ max 1 (min 1000 k) := le_trans (by norm_num) (le_max_left _ _)
    simp only [x_get_following, _request, Prog.requests, buildPath_cons]
    simp only [List.cons.injEq, and_true, HttpRequest.mk.injEq, true_and]
    simp only [urlencode, List.filterMap_cons, List.filterMap_nil, Option.map_some, List.map,
      joinAmp, quotePlus_pyStrInt _ h0]
    rw [show quotePlus "max_results" = "max_results" from rfl,
        show quotePlus "user.fields" = "user.fields" from rfl,
        show quotePlus "description,public_metrics,created_at" = "description%2Cpublic_metrics%2Ccreated_at" from rfl]
    apply String.ext
    simp [data_append]
  · have h0 : (0 : Int) ≤ max 1 (min 100 k) := le_trans (by norm_num) (le_max_left _ _)
    simp only [x_get_list_tweets, _request, Prog.requests, buildPath_cons]
    simp only [List.cons.injEq, and_true, HttpRequest.mk.injEq, true_and]
    simp only [urlencode, List.filterMap_cons, List.filterMap_nil, Option.map_some, List.map,
      joinAmp, quotePlus_pyStrInt _ h0]
    rw [show quotePlus "max_results" = "max_results" from rfl,
        show quotePlus "tweet.fields" = "tweet.fields" from rfl,
        show quotePlus "author_id,created_at,public_metrics" = "author_id%2Ccreated_at%2Cpublic_metrics" from rfl,
        show quotePlus "expansions" = "expansions" from rfl,
        show quotePlus "author_id" = "author_id" from rfl,
        show quotePlus "user.fields" = "user.fields" from rfl,
        show quotePlus "username,name" = "username%2Cname" from rfl]
    apply String.ext
    simp [data_append]
  · have h0 : (0 : Int) ≤ max 1 (min 100 k) := le_trans (by norm_num) (le_max_left _ _)
    simp only [x_get_user_lists, _request, Prog.requests, buildPath_cons]
    simp only [List.cons.injEq, and_true, HttpRequest.mk.injEq, true_and]
    simp only [urlencode, List.filterMap_cons, List.filterMap_nil, Option.map_some, List.map,
      joinAmp, quotePlus_pyStrInt _ h0]
    rw [show quotePlus "max_results" = "max_results" from rfl,
        show quotePlus "list.fields" = "list.fields" from rfl,
        show quotePlus "description,follower_count,member_count,created_at" = "description%2Cfollower_count%2Cmember_count%2Ccreated_at" from rfl]
    apply String.ext
    simp [data_append]
  · omega
  · omega
  · omega
  · omega
  · omega
  · omega
  · omega
  · omega
  · omega

/-- Witness for C2: a request for 3 results on x_get_user_tweets is raised
to the minimum of 10, and the forwarded parameter reads max_results=10. -/
theorem max_results_clamped_check :
    max 10 (min 100 (3 : Int)) = 10 ∧
    (x_get_user_tweets (α := Unit) "u" 3).requests =
      [{ method := HttpMethod.GET,
         path := "/users/u/tweets?max_results=10&tweet.fields=created_at%2Cpublic_metrics%2Centities" }] := by
  obtain ⟨a1, -, -, -, -, -, -, b1, -⟩ := max_results_clamped Unit "u" "q" "l" 3
  have hb := b1 (by norm_num)
  rw [hb] at a1
  rw [a1]
  exact ⟨hb, rfl⟩

/-- Claim C3: _request returns an XResult whose success flag equals the
dispatch response's success flag; on success its data is the response body
and its error is none; on failure carrying an error object, its error is
that error's message and its data is none. -/
theorem request_forwards_dispatch_outcome (α : Type) (method : HttpMethod) (path : String)
    (params : Option (List (String × Option String)))
    (oracle : HttpRequest → DispatchResponse α) :
    ((Prog.run (_request method path params) oracle).success =
        (oracle { method := method, path := buildPath path params }).success) ∧
    ((oracle { method := method, path := buildPath path params }).success = true →
      (Prog.run (_request method path params) oracle).data =
          some (oracle { method := method, path := buildPath path params }).body ∧
        (Prog.run (_request method path params) oracle).error = none) ∧
    (∀ e, (oracle { method := method, path := buildPath path params }).success = false →
      (oracle { method := method, path := buildPath path params }).error = some e →
      (Prog.run (_request method path params) oracle).error = some e.message ∧
        (Prog.run (_request method path params) oracle).data = none) := by
  simp only [_request, Prog.run, dispatchResult]
  rcases h : oracle { method := method, path := buildPath path params } with ⟨s, b, err⟩
  cases s <;> cases err <;> simp

/-- Witness for C3: a successful dispatch yields data equal to the body,
and a failed dispatch with an error object yields its message. -/
theorem request_forwards_dispatch_outcome_check :
    (Prog.run (_request (α := Unit) HttpMethod.GET "/users" none)
        (fun _ => ⟨true, (), none⟩)).data = some () ∧
    (Prog.run (_request (α := Unit) HttpMethod.GET "/users" none)
        (fun _ => ⟨false, (), some ⟨"boom"⟩⟩)).error = some "boom" := by
  constructor
  · exact ((request_forwards_dispatch_outcome Unit HttpMethod.GET "/users" none
      (fun _ => ⟨true, (), none⟩)).2.1 rfl).1
  · exact ((request_forwards_dispatch_outcome Unit HttpMethod.GET "/users" none
      (fun _ => ⟨false, (), some ⟨"boom"⟩⟩)).2.2 ⟨"boom"⟩ rfl rfl).1

/-- Claim C4: every tool call dispatches at most one outbound request, and
exactly one when the input passes local validation; there are no
retries. -/
theorem single_dispatch_per_call (α : Type) (c : ToolCall) :
    (runTool (α := α) c).requests.length ≤ 1 ∧
    (localValid c = true → (runTool (α := α) c).requests.length = 1) := by
  cases c with
  | getUsers ids =>
    by_cases h : ids.length > 100 <;>
      simp [runTool, x_get_users, h, _request, Prog.requests, localValid]
  | getTweets ids =>
    by_cases h : ids.length > 100 <;>
      simp [runTool, x_get_tweets, h, _request, Prog.requests, localValid]
  | _ =>
    simp [runTool, localValid, x_get_user, x_get_user_by_username, x_get_tweet,
      x_get_user_tweets, x_get_user_mentions, x_search_recent, x_count_recent,
      x_get_followers, x_get_following, x_get_list, x_get_list_tweets, x_get_user_lists,
      _request, Prog.requests]

/-- Witness for C4: a valid batch call dispatches exactly one request. -/
theorem single_dispatch_per_call_check :
    (runTool (α := Unit) (ToolCall.getUsers ["1"])).requests.length = 1 :=
  (single_dispatch_per_call Unit (ToolCall.getUsers ["1"])).2 (by decide)

/-- Claim C5: every outbound HttpRequest produced by any of the 14 tool
functions uses the GET method. -/
theorem all_requests_GET :
    (∀ (α : Type) (c : ToolCall), ∀ r ∈ (runTool (α := α) c).requests,
      r.method = HttpMethod.GET) ∧ x_tools.length = 14 := by
  refine ⟨?_, rfl⟩
  intro α c r hr
  cases c with
  | getUsers ids =>
    by_cases h : ids.length > 100 <;>
      simp [runTool, x_get_users, h, _request, Prog.requests] at hr
    · simp [hr]
  | getTweets ids =>
    by_cases h : ids.length > 100 <;>
      simp [runTool, x_get_tweets, h, _request, Prog.requests] at hr
    · simp [hr]
  | _ =>
    simp [runTool, x_get_user, x_get_user_by_username, x_get_tweet,
      x_get_user_tweets, x_get_user_mentions, x_search_recent, x_count_recent,
      x_get_followers, x_get_following, x_get_list, x_get_list_tweets, x_get_user_lists,
      _request, Prog.requests] at hr
    simp [hr]

/-- Witness for C5: the request dispatched by x_get_user is a GET. -/
theorem all_requests_GET_check :
    ({ method := HttpMethod.GET,
       path := "/users/1?user.fields=description%2Cpublic_metrics%2Ccreated_at" } :
      HttpRequest).method = HttpMethod.GET :=
  all_requests_GET.1 Unit (ToolCall.getUser "1")
    { method := HttpMethod.GET,
      path := "/users/1?user.fields=description%2Cpublic_metrics%2Ccreated_at" }
    (by decide)

/-- Claim C6: when x_get_users or x_get_tweets rejects an over-long id
list, no outbound request is dispatched and the failure result is returned
whatever the dispatch layer would answer. -/
theorem batch_rejection_is_local (α : Type) (ids : List String) (h : 100 < ids.length) :
    (x_get_users (α := α) ids).requests = [] ∧
    (∀ oracle, Prog.run (x_get_users (α := α) ids) oracle =
      { success := false, data := none, error := some "Maximum 100 user IDs allowed" }) ∧
    (x_get_tweets (α := α) ids).requests = [] ∧
    (∀ oracle, Prog.run (x_get_tweets (α := α) ids) oracle =
      { success := false, data := none, error := some "Maximum 100 tweet IDs allowed" }) := by
  refine ⟨?_, ?_, ?_, ?_⟩ <;>
    simp [x_get_users, x_get_tweets, h, Prog.requests, Prog.run]

/-- Witness for C6: at 101 ids, x_get_users dispatches nothing and fails
locally. -/
theorem batch_rejection_is_local_check :
    (x_get_users (α := Unit) (List.replicate 101 "1")).requests = [] ∧
    Prog.run (x_get_users (α := Unit) (List.replicate 101 "1")) (fun _ => ⟨true, (), none⟩) =
      { success := false, data := none, error := some "Maximum 100 user IDs allowed" } := by
  obtain ⟨h1, h2, -, -⟩ := batch_rejection_is_local Unit (List.replicate 101 "1") (by norm_num)
  exact ⟨h1, h2 _⟩

/-- Claim C7: the result of a tool invocation is a function only of its
own arguments and the dispatch response to its own request: two oracles
agreeing on the requests the call dispatches give equal results, so no
other invocation or shared state can influence the outcome. -/
theorem result_depends_only_on_dispatch (α : Type) (c : ToolCall)
    (o1 o2 : HttpRequest → DispatchResponse α)
    (h : ∀ r ∈ (runTool (α := α) c).requests, o1 r = o2 r) :
    Prog.run (runTool (α := α) c) o1 = Prog.run (runTool (α := α) c) o2 := by
  cases hp : runTool (α := α) c with
  | ret r => simp [Prog.run]
  | dispatchThen conn req k =>
    have hreq : o1 req = o2 req := h req (by simp [hp, Prog.requests])
    simp [Prog.run, hreq]

/-- Witness for C7: changing the oracle on requests the call never makes
(here POST requests) does not change the result. -/
theorem result_depends_only_on_dispatch_check :
    Prog.run (runTool (α := Unit) (ToolCall.getUser "1")) (fun _ => ⟨true, (), none⟩) =
      Prog.run (runTool (α := Unit) (ToolCall.getUser "1"))
        (fun r => if r.method = HttpMethod.POST then ⟨false, (), none⟩ else ⟨true, (), none⟩) :=
  result_depends_only_on_dispatch Unit (ToolCall.getUser "1") _ _ (by decide)

/-- Claim C8: in the path built by _request, pairs whose value is None are
omitted from the query string, and a params dict that is absent, empty, or
all-None leaves the path unchanged with no question mark appended. -/
theorem none_params_omitted (p : String) (ps : List (String × Option String)) :
    buildPath p none = p ∧
    buildPath p (some []) = p ∧
    ((∀ kv ∈ ps, kv.2 = none) → buildPath p (some ps) = p) ∧
    buildPath p (some ps) = buildPath p (some (ps.filter fun kv => kv.2.isSome)) := by
  refine ⟨rfl, rfl, ?_, ?_⟩
  · intro hall
    have hmap : (ps.filterMap fun x => x.2.map fun v => (x.1, v)) = [] := by
      rw [List.filterMap_eq_nil_iff]
      intro a ha
      rw [hall a ha]
      rfl
    rw [buildPath_some_eq, if_pos hmap]
  · rw [buildPath_some_eq, buildPath_some_eq, filterMap_filter_isSome]

/-- Witness for C8: an all-None dict leaves the path bare, and a None pair
drops out of a mixed dict. -/
theorem none_params_omitted_check :
    buildPath "/p" (some [("a", none)]) = "/p" ∧
    buildPath "/p" (some [("a", none), ("b", some "1")]) =
      buildPath "/p" (some [("b", some "1")]) := by
  obtain ⟨-, -, h3, -⟩ := none_params_omitted "/p" [("a", none)]
  obtain ⟨-, -, -, h4⟩ := none_params_omitted "/p" [("a", none), ("b", some "1")]
  exact ⟨h3 (by decide), h4⟩

/-- Claim C9: a failed dispatch response with no error object makes
_request return the failure XResult with the fallback string Request
failed. -/
theorem missing_error_fallback (α : Type) (method : HttpMethod) (path : String)
    (params : Option (List (String × Option String)))
    (oracle : HttpRequest → DispatchResponse α)
    (h1 : (oracle { method := method, path := buildPath path params }).success = false)
    (h2 : (oracle { method := method, path := buildPath path params }).error = none) :
    Prog.run (_request method path params) oracle =
      { success := false, data := none, error := some "Request failed" } := by
  simp only [_request, Prog.run, dispatchResult, h1, h2]
  rfl

/-- Witness for C9: a concrete failed dispatch with no error object
returns the fallback message. -/
theorem missing_error_fallback_check :
    Prog.run (_request (α := Unit) HttpMethod.GET "/users" none) (fun _ => ⟨false, (), none⟩) =
      { success := false, data := none, error := some "Request failed" } :=
  missing_error_fallback Unit HttpMethod.GET "/users" none (fun _ => ⟨false, (), none⟩) rfl rfl

/-- Claim C10: smoke_ping dispatches nothing and returns ok = true with
message equal to its argument; with the argument omitted the message is
pong. -/
theorem smoke_ping_no_dispatch (α : Type) (m : String) :
    (smoke_ping (α := α) m).requests = [] ∧
    (∀ oracle, Prog.run (smoke_ping (α := α) m) oracle = { ok := true, message := m }) ∧
    (smoke_ping (α := α)) = smoke_ping (α := α) "pong" :=
  ⟨rfl, fun _ => rfl, rfl⟩
